import Mathlib

/-!
Shallow embedding of the EF100 ethtool ringparam handlers from
`src/driver/linux_net/drivers/net/ethernet/sfc/ef100_ethtool.c`
(out-of-tree configuration, where the driverlink multi-client busy check
is compiled in).  Ring sizes and bitmaps are C `unsigned long` / `u32`
values, modelled as `Nat`; return codes are C `int`, modelled as `Int`,
with the usual negative-errno convention.
-/

/-- The relevant fields of `struct efx_nic` together with the interface
state `is_up = !efx_check_disabled(efx) && netif_running(efx->net_dev)`
sampled at entry to the handler. -/
structure EfxNic where
  rxq_entries : Nat
  txq_entries : Nat
  supported_bitmap : Nat
  guaranteed_bitmap : Nat
  open_count : Nat
  is_up : Bool
deriving DecidableEq, Repr

/-- The fields of `struct ethtool_ringparam` written by user space for a
set request. -/
structure EthtoolRingparam where
  rx_pending : Nat
  tx_pending : Nat
  rx_mini_pending : Nat
  rx_jumbo_pending : Nat
deriving DecidableEq, Repr

/-- The fields of `struct ethtool_ringparam` filled by the get handler. -/
structure RingparamReport where
  rx_max_pending : Nat
  tx_max_pending : Nat
  rx_pending : Nat
  tx_pending : Nat
deriving DecidableEq, Repr

/-- Linux errno `EINVAL`. -/
def EINVAL : Int := 22

/-- Linux errno `EOPNOTSUPP`. -/
def EOPNOTSUPP : Int := 95

/-- Linux errno `ERANGE`. -/
def ERANGE : Int := 34

/-- Linux errno `EBUSY`. -/
def EBUSY : Int := 16

/-- `EFX_EF100_MAX_DMAQ_SIZE` from ef100_ethtool.c. -/
def EFX_EF100_MAX_DMAQ_SIZE : Nat := 16384

/-- Linux `is_power_of_2` from include/linux/log2.h:
`n != 0 && ((n & (n - 1)) == 0)`. -/
def is_power_of_2 (n : Nat) : Bool := n != 0 && (n &&& (n - 1)) == 0

/-- Linux `rounddown_pow_of_two` for a nonzero argument:
the largest power of two that is ≤ n. -/
def rounddown_pow_of_two (n : Nat) : Nat := 2 ^ Nat.log2 n

/-- `ef100_ethtool_get_ringparam`: reports the current ring sizes and the
maximum size derived from the guaranteed-capability bitmap masked to the
QDMA ceiling. -/
def ef100_ethtool_get_ringparam (efx : EfxNic) : RingparamReport :=
  let driver_bitmap :=
    (EFX_EF100_MAX_DMAQ_SIZE ||| (EFX_EF100_MAX_DMAQ_SIZE - 1)) &&&
      efx.guaranteed_bitmap
  let max_size := if driver_bitmap ≠ 0 then rounddown_pow_of_two driver_bitmap else 0
  { rx_max_pending := max_size
    tx_max_pending := max_size
    rx_pending := efx.rxq_entries
    tx_pending := efx.txq_entries }

/-- The observable outcome of a set_ringparam call: the returned code, the
resulting `efx` state, and whether the close/open restart cycle ran. -/
structure SetResult where
  rc : Int
  efx : EfxNic
  restarted : Bool
deriving DecidableEq, Repr

/-- `ef100_ethtool_set_ringparam`.  `openRc` is the value that
`dev_open` returns if the restart cycle is reached (the environment of
the call); the checks are in the exact source order. -/
def ef100_ethtool_set_ringparam (efx : EfxNic) (ring : EthtoolRingparam)
    (openRc : Int) : SetResult :=
  if ring.rx_mini_pending ≠ 0 ∨ ring.rx_jumbo_pending ≠ 0 then
    ⟨-EINVAL, efx, false⟩
  else if is_power_of_2 ring.rx_pending = false ∨
      is_power_of_2 ring.tx_pending = false then
    ⟨-EINVAL, efx, false⟩
  else if ring.rx_pending = efx.rxq_entries ∧ ring.tx_pending = efx.txq_entries then
    ⟨0, efx, false⟩
  else if efx.supported_bitmap = 0 then
    ⟨-EOPNOTSUPP, efx, false⟩
  else if ring.rx_pending ≠ 0 ∧ efx.guaranteed_bitmap &&& ring.rx_pending = 0 then
    ⟨-ERANGE, efx, false⟩
  else if ring.tx_pending ≠ 0 ∧ efx.guaranteed_bitmap &&& ring.tx_pending = 0 then
    ⟨-ERANGE, efx, false⟩
  else if efx.open_count > (if efx.is_up then 1 else 0) then
    ⟨-EBUSY, efx, false⟩
  else
    let efx' := { efx with rxq_entries := ring.rx_pending
                           txq_entries := ring.tx_pending }
    if efx.is_up then ⟨openRc, efx', true⟩ else ⟨0, efx', false⟩

/-- Spec-side definition for the get query: the largest power of two that
is ≤ 16384 (i.e. `2 ^ k` with `k ≤ 14`) whose bit is set in the bitmap,
or 0 when no such bit is set. -/
def specMaxRingSize (bitmap : Nat) : Nat :=
  (List.range 15).foldl (fun acc k => if bitmap.testBit k then 2 ^ k else acc) 0

lemma driver_bitmap_eq (g : Nat) :
    (EFX_EF100_MAX_DMAQ_SIZE ||| (EFX_EF100_MAX_DMAQ_SIZE - 1)) &&& g = g % 2 ^ 15 := by
  have h : (EFX_EF100_MAX_DMAQ_SIZE ||| (EFX_EF100_MAX_DMAQ_SIZE - 1)) = 2 ^ 15 - 1 := by
    decide
  rw [h, Nat.and_comm, Nat.and_pow_two_sub_one_eq_mod]

lemma specFold_no_bits (b : Nat) (n : Nat) (acc : Nat)
    (h : ∀ k, k < n → b.testBit k = false) :
    (List.range n).foldl (fun acc k => if b.testBit k then 2 ^ k else acc) acc = acc := by
  induction n with
  | zero => rfl
  | succ n ih =>
    rw [List.range_succ, List.foldl_append]
    simp only [List.foldl_cons, List.foldl_nil]
    rw [ih (fun k hk => h k (Nat.lt_succ_of_lt hk))]
    rw [if_neg]
    simp [h n (Nat.lt_succ_self n)]

lemma specFold_top_bit (b L : Nat) (hbit : b.testBit L = true) :
    ∀ n, L < n → (∀ k, L < k → k < n → b.testBit k = false) → ∀ acc,
    (List.range n).foldl (fun acc k => if b.testBit k then 2 ^ k else acc) acc = 2 ^ L := by
  intro n
  induction n with
  | zero => intro h; omega
  | succ n ih =>
    intro hLn habove acc
    rw [List.range_succ, List.foldl_append]
    simp only [List.foldl_cons, List.foldl_nil]
    by_cases h : L < n
    · rw [if_neg (by simp [habove n h (Nat.lt_succ_self n)])]
      exact ih h (fun k hk1 hk2 => habove k hk1 (Nat.lt_succ_of_lt hk2)) acc
    · have hnL : n = L := by omega
      subst hnL
      rw [if_pos hbit]

lemma specMaxRingSize_eq (g : Nat) :
    (if g % 2 ^ 15 ≠ 0 then rounddown_pow_of_two (g % 2 ^ 15) else 0) =
      specMaxRingSize g := by
  have hbits : ∀ k, k < 15 → g.testBit k = (g % 2 ^ 15).testBit k := by
    intro k hk
    rw [Nat.testBit_mod_two_pow]
    simp [hk]
  by_cases hm : g % 2 ^ 15 = 0
  · rw [if_neg (not_not_intro hm)]
    unfold specMaxRingSize
    rw [specFold_no_bits]
    intro k hk
    rw [hbits k hk, hm]
    simp
  · rw [if_pos hm]
    have hmlt : g % 2 ^ 15 < 2 ^ 15 := Nat.mod_lt _ (by norm_num)
    set m := g % 2 ^ 15 with hmdef
    have hlog : Nat.log2 m = Nat.log 2 m := Nat.log2_eq_log_two
    have h1 : 2 ^ Nat.log2 m ≤ m := by
      rw [hlog]; exact Nat.pow_log_le_self 2 hm
    have h2 : m < 2 ^ (Nat.log2 m + 1) := by
      rw [hlog]; exact Nat.lt_pow_succ_log_self (by norm_num) m
    have hL15 : Nat.log2 m < 15 := by
      have : 2 ^ Nat.log2 m < 2 ^ 15 := lt_of_le_of_lt h1 hmlt
      exact (Nat.pow_lt_pow_iff_right (by norm_num)).mp this
    have hdiv : m / 2 ^ Nat.log2 m = 1 := by
      refine Nat.div_eq_of_lt_le (by simpa using h1) ?_
      simpa [Nat.two_mul, Nat.pow_succ, Nat.mul_comm] using h2
    have hbitm : m.testBit (Nat.log2 m) = true := by
      rw [Nat.testBit_to_div_mod, hdiv]
      decide
    have hbitg : g.testBit (Nat.log2 m) = true := by
      rw [hbits _ hL15]; exact hbitm
    unfold specMaxRingSize rounddown_pow_of_two
    refine (specFold_top_bit g (Nat.log2 m) hbitg 15 hL15 ?_ 0).symm
    intro k hk1 hk2
    rw [hbits k hk2]
    exact Nat.testBit_lt_two_pow (lt_of_lt_of_le h2 (Nat.pow_le_pow_right (by norm_num) hk1))

/-- Claim C2: for every device state, get_ringparam reports both maxima
equal to the largest power of two that is ≤ 16384 and present in the
guaranteed-capability bitmap (0 when no such bit exists), and reports the
current rxq_entries / txq_entries as the pending sizes. -/
theorem C2_get_ringparam_report (efx : EfxNic) :
    (ef100_ethtool_get_ringparam efx).rx_max_pending =
        specMaxRingSize efx.guaranteed_bitmap ∧
    (ef100_ethtool_get_ringparam efx).tx_max_pending =
        specMaxRingSize efx.guaranteed_bitmap ∧
    (ef100_ethtool_get_ringparam efx).rx_pending = efx.rxq_entries ∧
    (ef100_ethtool_get_ringparam efx).tx_pending = efx.txq_entries := by
  refine ⟨?_, ?_, rfl, rfl⟩ <;>
  · unfold ef100_ethtool_get_ringparam
    simp only [driver_bitmap_eq]
    exact specMaxRingSize_eq _

lemma is_power_of_2_ne_zero {n : Nat} (h : is_power_of_2 n = true) : n ≠ 0 := by
  intro h0
  subst h0
  simp [is_power_of_2] at h

/-- Claim C9: a request with a nonzero mini or jumbo ring size fails with
`-EINVAL` before any other check, leaving the state unchanged and
performing no restart (the conclusion holds for every value of the other
fields, the bitmaps and the open-client count). -/
theorem C9_mini_jumbo_einval (efx : EfxNic) (ring : EthtoolRingparam) (openRc : Int)
    (h : ring.rx_mini_pending ≠ 0 ∨ ring.rx_jumbo_pending ≠ 0) :
    ef100_ethtool_set_ringparam efx ring openRc = ⟨-EINVAL, efx, false⟩ := by
  unfold ef100_ethtool_set_ringparam
  rw [if_pos h]

theorem C9_witness :
    ef100_ethtool_set_ringparam ⟨512, 512, 32767, 32767, 0, true⟩ ⟨512, 512, 1, 0⟩ 0 =
      ⟨-EINVAL, ⟨512, 512, 32767, 32767, 0, true⟩, false⟩ :=
  C9_mini_jumbo_einval _ _ _ (by decide)

/-- Claim C7: with mini/jumbo fields zero, a request in which rx_pending
or tx_pending is not an exact power of two fails with `-EINVAL` and
leaves the current ring configuration unchanged. -/
theorem C7_pow2_einval (efx : EfxNic) (ring : EthtoolRingparam) (openRc : Int)
    (hmini : ring.rx_mini_pending = 0) (hjumbo : ring.rx_jumbo_pending = 0)
    (hpow : is_power_of_2 ring.rx_pending = false ∨
      is_power_of_2 ring.tx_pending = false) :
    ef100_ethtool_set_ringparam efx ring openRc = ⟨-EINVAL, efx, false⟩ := by
  unfold ef100_ethtool_set_ringparam
  rw [if_neg (by simp [hmini, hjumbo]), if_pos hpow]

theorem C7_witness :
    ef100_ethtool_set_ringparam ⟨512, 512, 32767, 32767, 0, true⟩ ⟨1000, 512, 0, 0⟩ 0 =
      ⟨-EINVAL, ⟨512, 512, 32767, 32767, 0, true⟩, false⟩ :=
  C7_pow2_einval _ _ _ rfl rfl (by decide)

/-- Claim C4: a well-formed request (mini/jumbo zero, both sizes powers of
two) equal to the current configuration succeeds with 0, performs no
restart and changes nothing, whatever the bitmaps and open-client count
are. -/
theorem C4_noop_success (efx : EfxNic) (ring : EthtoolRingparam) (openRc : Int)
    (hmini : ring.rx_mini_pending = 0) (hjumbo : ring.rx_jumbo_pending = 0)
    (hrxp : is_power_of_2 ring.rx_pending = true)
    (htxp : is_power_of_2 ring.tx_pending = true)
    (heqrx : ring.rx_pending = efx.rxq_entries)
    (heqtx : ring.tx_pending = efx.txq_entries) :
    ef100_ethtool_set_ringparam efx ring openRc = ⟨0, efx, false⟩ := by
  unfold ef100_ethtool_set_ringparam
  rw [if_neg (by simp [hmini, hjumbo]), if_neg (by simp [hrxp, htxp]),
      if_pos ⟨heqrx, heqtx⟩]

theorem C4_witness :
    ef100_ethtool_set_ringparam ⟨1024, 2048, 0, 0, 7, true⟩ ⟨1024, 2048, 0, 0⟩ (-5) =
      ⟨0, ⟨1024, 2048, 0, 0, 7, true⟩, false⟩ :=
  C4_noop_success _ _ _ rfl rfl (by decide) (by decide) rfl rfl

/-- Claim C1: a request passing every validation check stores rx_pending
into rxq_entries and tx_pending into txq_entries; if the interface was up
it restarts (close then open) and returns the open's status code — the
new sizes are kept for every value of that code, so a failed open does
not revert them — and if it was down it does not restart and returns 0. -/
theorem C1_update_and_restart (efx : EfxNic) (ring : EthtoolRingparam) (openRc : Int)
    (hmini : ring.rx_mini_pending = 0) (hjumbo : ring.rx_jumbo_pending = 0)
    (hrxp : is_power_of_2 ring.rx_pending = true)
    (htxp : is_power_of_2 ring.tx_pending = true)
    (hne : ¬(ring.rx_pending = efx.rxq_entries ∧ ring.tx_pending = efx.txq_entries))
    (hsup : efx.supported_bitmap ≠ 0)
    (hrxbit : efx.guaranteed_bitmap &&& ring.rx_pending ≠ 0)
    (htxbit : efx.guaranteed_bitmap &&& ring.tx_pending ≠ 0)
    (hbusy : ¬ efx.open_count > (if efx.is_up then 1 else 0)) :
    (ef100_ethtool_set_ringparam efx ring openRc).efx.rxq_entries = ring.rx_pending ∧
    (ef100_ethtool_set_ringparam efx ring openRc).efx.txq_entries = ring.tx_pending ∧
    (efx.is_up = true →
      (ef100_ethtool_set_ringparam efx ring openRc).rc = openRc ∧
      (ef100_ethtool_set_ringparam efx ring openRc).restarted = true) ∧
    (efx.is_up = false →
      (ef100_ethtool_set_ringparam efx ring openRc).rc = 0 ∧
      (ef100_ethtool_set_ringparam efx ring openRc).restarted = false) := by
  unfold ef100_ethtool_set_ringparam
  rw [if_neg (by simp [hmini, hjumbo]), if_neg (by simp [hrxp, htxp]),
      if_neg hne, if_neg hsup, if_neg (fun h => hrxbit h.2),
      if_neg (fun h => htxbit h.2), if_neg hbusy]
  cases hup : efx.is_up <;> simp [hup]

theorem C1_witness :
    (ef100_ethtool_set_ringparam ⟨512, 512, 32767, 32767, 1, true⟩ ⟨1024, 2048, 0, 0⟩ (-5)).efx.rxq_entries = 1024 ∧
    (ef100_ethtool_set_ringparam ⟨512, 512, 32767, 32767, 1, true⟩ ⟨1024, 2048, 0, 0⟩ (-5)).efx.txq_entries = 2048 ∧
    (ef100_ethtool_set_ringparam ⟨512, 512, 32767, 32767, 1, true⟩ ⟨1024, 2048, 0, 0⟩ (-5)).rc = -5 ∧
    (ef100_ethtool_set_ringparam ⟨512, 512, 32767, 32767, 1, true⟩ ⟨1024, 2048, 0, 0⟩ (-5)).restarted = true := by
  have h := C1_update_and_restart ⟨512, 512, 32767, 32767, 1, true⟩ ⟨1024, 2048, 0, 0⟩ (-5)
    rfl rfl (by decide) (by decide) (by decide) (by decide) (by decide) (by decide) (by decide)
  exact ⟨h.1, h.2.1, (h.2.2.1 rfl).1, (h.2.2.1 rfl).2⟩

/-- Claim C3: whenever the call returns one of the validation error codes
(`-EINVAL`, `-EOPNOTSUPP`, `-ERANGE`, `-EBUSY`) without having run the
restart cycle, the stored configuration is exactly as before; and the
only way a failing return can follow a mutation of the stored
configuration is through the restart (close/open) path. -/
theorem C3_fail_fast (efx : EfxNic) (ring : EthtoolRingparam) (openRc : Int) :
    ((ef100_ethtool_set_ringparam efx ring openRc).restarted = false →
      ((ef100_ethtool_set_ringparam efx ring openRc).rc = -EINVAL ∨
       (ef100_ethtool_set_ringparam efx ring openRc).rc = -EOPNOTSUPP ∨
       (ef100_ethtool_set_ringparam efx ring openRc).rc = -ERANGE ∨
       (ef100_ethtool_set_ringparam efx ring openRc).rc = -EBUSY) →
      (ef100_ethtool_set_ringparam efx ring openRc).efx = efx) ∧
    ((ef100_ethtool_set_ringparam efx ring openRc).rc ≠ 0 →
      (ef100_ethtool_set_ringparam efx ring openRc).efx ≠ efx →
      (ef100_ethtool_set_ringparam efx ring openRc).restarted = true) := by
  unfold ef100_ethtool_set_ringparam
  split_ifs <;> simp [EINVAL, EOPNOTSUPP, ERANGE, EBUSY]

theorem C3_witness :
    (ef100_ethtool_set_ringparam ⟨512, 512, 0, 0, 0, false⟩ ⟨1024, 1024, 1, 0⟩ 0).efx =
      ⟨512, 512, 0, 0, 0, false⟩ ∧
    (ef100_ethtool_set_ringparam ⟨512, 512, 32767, 32767, 0, true⟩ ⟨1024, 1024, 0, 0⟩ (-5)).restarted = true :=
  ⟨(C3_fail_fast ⟨512, 512, 0, 0, 0, false⟩ ⟨1024, 1024, 1, 0⟩ 0).1 (by decide) (by decide),
   (C3_fail_fast ⟨512, 512, 32767, 32767, 0, true⟩ ⟨1024, 1024, 0, 0⟩ (-5)).2 (by decide) (by decide)⟩

/-- Claim C5, counterexample to the claim as stated: on a device with
supported_bitmap = 0, a request that differs from the current
configuration but is not a power of two fails with `-EINVAL`, not with
the not-supported code `-EOPNOTSUPP`. -/
theorem C5_counterexample :
    (⟨512, 512, 0, 0, 0, false⟩ : EfxNic).supported_bitmap = 0 ∧
    (⟨3, 512, 0, 0⟩ : EthtoolRingparam).rx_pending ≠
      (⟨512, 512, 0, 0, 0, false⟩ : EfxNic).rxq_entries ∧
    (ef100_ethtool_set_ringparam ⟨512, 512, 0, 0, 0, false⟩ ⟨3, 512, 0, 0⟩ 0).rc = -EINVAL ∧
    (ef100_ethtool_set_ringparam ⟨512, 512, 0, 0, 0, false⟩ ⟨3, 512, 0, 0⟩ 0).rc ≠ -EOPNOTSUPP := by
  decide

/-- Claim C5 as amended: on a device with supported_bitmap = 0, every
well-formed request (mini/jumbo zero, both sizes powers of two) that
differs from the current configuration fails with `-EOPNOTSUPP`, leaving
the state unchanged and performing no restart. -/
theorem C5_unsupported (efx : EfxNic) (ring : EthtoolRingparam) (openRc : Int)
    (hmini : ring.rx_mini_pending = 0) (hjumbo : ring.rx_jumbo_pending = 0)
    (hrxp : is_power_of_2 ring.rx_pending = true)
    (htxp : is_power_of_2 ring.tx_pending = true)
    (hne : ¬(ring.rx_pending = efx.rxq_entries ∧ ring.tx_pending = efx.txq_entries))
    (hsup : efx.supported_bitmap = 0) :
    ef100_ethtool_set_ringparam efx ring openRc = ⟨-EOPNOTSUPP, efx, false⟩ := by
  unfold ef100_ethtool_set_ringparam
  rw [if_neg (by simp [hmini, hjumbo]), if_neg (by simp [hrxp, htxp]),
      if_neg hne, if_pos hsup]

theorem C5_witness :
    ef100_ethtool_set_ringparam ⟨512, 512, 0, 0, 0, false⟩ ⟨1024, 1024, 0, 0⟩ 0 =
      ⟨-EOPNOTSUPP, ⟨512, 512, 0, 0, 0, false⟩, false⟩ :=
  C5_unsupported _ _ _ rfl rfl (by decide) (by decide) (by decide) rfl

/-- Claim C6: once the mini/jumbo, power-of-two, no-op and supported
checks pass, a request whose rx_pending bit is absent from the
guaranteed bitmap fails with `-ERANGE`; and if the RX bit is present but
the tx_pending bit is absent, it also fails with `-ERANGE` (RX checked
before TX, each side on its own; the sizes are nonzero because they are
powers of two). -/
theorem C6_range_checks (efx : EfxNic) (ring : EthtoolRingparam) (openRc : Int)
    (hmini : ring.rx_mini_pending = 0) (hjumbo : ring.rx_jumbo_pending = 0)
    (hrxp : is_power_of_2 ring.rx_pending = true)
    (htxp : is_power_of_2 ring.tx_pending = true)
    (hne : ¬(ring.rx_pending = efx.rxq_entries ∧ ring.tx_pending = efx.txq_entries))
    (hsup : efx.supported_bitmap ≠ 0) :
    (efx.guaranteed_bitmap &&& ring.rx_pending = 0 →
      ef100_ethtool_set_ringparam efx ring openRc = ⟨-ERANGE, efx, false⟩) ∧
    (efx.guaranteed_bitmap &&& ring.rx_pending ≠ 0 →
      efx.guaranteed_bitmap &&& ring.tx_pending = 0 →
      ef100_ethtool_set_ringparam efx ring openRc = ⟨-ERANGE, efx, false⟩) := by
  unfold ef100_ethtool_set_ringparam
  rw [if_neg (by simp [hmini, hjumbo]), if_neg (by simp [hrxp, htxp]),
      if_neg hne, if_neg hsup]
  constructor
  · intro hrx0
    rw [if_pos ⟨is_power_of_2_ne_zero hrxp, hrx0⟩]
  · intro hrxbit htx0
    rw [if_neg (fun h => hrxbit h.2),
        if_pos ⟨is_power_of_2_ne_zero htxp, htx0⟩]

theorem C6_witness :
    ef100_ethtool_set_ringparam ⟨512, 512, 32767, 2048, 0, false⟩ ⟨1024, 1024, 0, 0⟩ 0 =
      ⟨-ERANGE, ⟨512, 512, 32767, 2048, 0, false⟩, false⟩ ∧
    ef100_ethtool_set_ringparam ⟨512, 512, 32767, 2048, 0, false⟩ ⟨2048, 1024, 0, 0⟩ 0 =
      ⟨-ERANGE, ⟨512, 512, 32767, 2048, 0, false⟩, false⟩ :=
  ⟨(C6_range_checks ⟨512, 512, 32767, 2048, 0, false⟩ ⟨1024, 1024, 0, 0⟩ 0
      rfl rfl (by decide) (by decide) (by decide) (by decide)).1 (by decide),
   (C6_range_checks ⟨512, 512, 32767, 2048, 0, false⟩ ⟨2048, 1024, 0, 0⟩ 0
      rfl rfl (by decide) (by decide) (by decide) (by decide)).2 (by decide) (by decide)⟩

/-- Claim C8, counterexample to the claim as stated: with the interface
down and a single open client (open_count = 1, not more than one), a
request passing all earlier checks is rejected with `-EBUSY`, because
the source condition is `open_count > is_up`, not `open_count > 1`. -/
theorem C8_counterexample :
    (⟨512, 512, 32767, 32767, 1, false⟩ : EfxNic).open_count = 1 ∧
    ¬((⟨512, 512, 32767, 32767, 1, false⟩ : EfxNic).open_count > 1) ∧
    (ef100_ethtool_set_ringparam ⟨512, 512, 32767, 32767, 1, false⟩ ⟨1024, 1024, 0, 0⟩ 0).rc = -EBUSY ∧
    (ef100_ethtool_set_ringparam ⟨512, 512, 32767, 32767, 1, false⟩ ⟨1024, 1024, 0, 0⟩ 0).restarted = false := by
  decide

/-- Claim C8 as amended: for a request passing the mini/jumbo,
power-of-two, no-op, supported and bitmap-membership checks, the call
fails with `-EBUSY` (without restarting) if and only if the open-client
count exceeds 1 when the interface is up, respectively exceeds 0 when it
is down — i.e. `open_count > is_up` as in the source. -/
theorem C8_busy_iff (efx : EfxNic) (ring : EthtoolRingparam) (openRc : Int)
    (hmini : ring.rx_mini_pending = 0) (hjumbo : ring.rx_jumbo_pending = 0)
    (hrxp : is_power_of_2 ring.rx_pending = true)
    (htxp : is_power_of_2 ring.tx_pending = true)
    (hne : ¬(ring.rx_pending = efx.rxq_entries ∧ ring.tx_pending = efx.txq_entries))
    (hsup : efx.supported_bitmap ≠ 0)
    (hrxbit : efx.guaranteed_bitmap &&& ring.rx_pending ≠ 0)
    (htxbit : efx.guaranteed_bitmap &&& ring.tx_pending ≠ 0) :
    ((ef100_ethtool_set_ringparam efx ring openRc).rc = -EBUSY ∧
      (ef100_ethtool_set_ringparam efx ring openRc).restarted = false) ↔
      efx.open_count > (if efx.is_up then 1 else 0) := by
  unfold ef100_ethtool_set_ringparam
  rw [if_neg (by simp [hmini, hjumbo]), if_neg (by simp [hrxp, htxp]),
      if_neg hne, if_neg hsup, if_neg (fun h => hrxbit h.2),
      if_neg (fun h => htxbit h.2)]
  by_cases hbusy : efx.open_count > (if efx.is_up then 1 else 0)
  · rw [if_pos hbusy]
    simpa using hbusy
  · rw [if_neg hbusy]
    cases hup : efx.is_up <;> simp [hup, EBUSY] at hbusy ⊢ <;> omega

theorem C8_witness :
    (ef100_ethtool_set_ringparam ⟨512, 512, 32767, 32767, 2, true⟩ ⟨1024, 1024, 0, 0⟩ 0).rc = -EBUSY ∧
    (ef100_ethtool_set_ringparam ⟨512, 512, 32767, 32767, 2, true⟩ ⟨1024, 1024, 0, 0⟩ 0).restarted = false :=
  (C8_busy_iff ⟨512, 512, 32767, 32767, 2, true⟩ ⟨1024, 1024, 0, 0⟩ 0
    rfl rfl (by decide) (by decide) (by decide) (by decide) (by decide) (by decide)).mpr
    (by decide)

/-- Claim C10: with mini/jumbo fields zero, a request with a zero
rx_pending or tx_pending is rejected with `-EINVAL` at the power-of-two
check (zero is not a power of two) without touching the state; and every
size passing the power-of-two check is nonzero, so the zero-size guards
of the later bitmap checks can never see a zero size. -/
theorem C10_zero_size (efx : EfxNic) (ring : EthtoolRingparam) (openRc : Int) :
    (ring.rx_mini_pending = 0 → ring.rx_jumbo_pending = 0 →
      ring.rx_pending = 0 ∨ ring.tx_pending = 0 →
      ef100_ethtool_set_ringparam efx ring openRc = ⟨-EINVAL, efx, false⟩) ∧
    (∀ n, is_power_of_2 n = true → n ≠ 0) := by
  constructor
  · intro hmini hjumbo h0
    unfold ef100_ethtool_set_ringparam
    rw [if_neg (by simp [hmini, hjumbo])]
    rw [if_pos ?_]
    rcases h0 with h | h
    · exact Or.inl (by rw [h]; decide)
    · exact Or.inr (by rw [h]; decide)
  · exact fun n h => is_power_of_2_ne_zero h

theorem C10_witness :
    ef100_ethtool_set_ringparam ⟨512, 512, 32767, 32767, 0, false⟩ ⟨0, 512, 0, 0⟩ 0 =
      ⟨-EINVAL, ⟨512, 512, 32767, 32767, 0, false⟩, false⟩ ∧ (4 : Nat) ≠ 0 :=
  ⟨(C10_zero_size ⟨512, 512, 32767, 32767, 0, false⟩ ⟨0, 512, 0, 0⟩ 0).1 rfl rfl (Or.inl rfl),
   (C10_zero_size ⟨512, 512, 32767, 32767, 0, false⟩ ⟨0, 512, 0, 0⟩ 0).2 4 (by decide)⟩
